import Mathlib

/-!
Shallow embedding of the ARC-59 asset-routing contract
(src/contracts/arc59.algo.ts) over a small model of the Algorand ledger:
accounts carry a microalgo balance and a list of asset holdings, the
router application account owns the inbox directory box map, and the
inner transactions the contract issues (payments, asset transfers,
opt-ins, close-outs) are modelled as all-or-nothing steps in an
exception monad, since any failing inner transaction aborts the whole
atomic group.
-/

namespace Arc59

/-- Account addresses; 0 is the zero-address sentinel. -/
abbrev Address := Nat

/-- Asset identifiers. -/
abbrev AssetID := Nat

/-- The zero address sentinel returned by the directory probe. -/
def zeroAddress : Address := 0

/-- The router application account address. -/
def appAddr : Address := 1

/-- Base minimum balance for an existing account, in microalgos. -/
def gMinBalance : Nat := 100000

/-- Additional minimum balance required per asset opt-in. -/
def gAssetOptInMinBalance : Nat := 100000

/-- Minimum-balance charge for one inbox directory box: a flat 2500 plus
400 per byte of the 32-byte address key and 32-byte address value. -/
def inboxBoxMbr : Nat := 2500 + 400 * (32 + 32)

/-- Amounts are 64-bit machine words on chain; an addition that would
exceed this bound aborts the transaction. -/
def u64Bound : Nat := 2 ^ 64

/-- Association-list lookup by key, first binding wins. -/
def alookup (k : Nat) : List (Nat × α) → Option α
  | [] => none
  | (k1, v) :: rest => if k1 = k then some v else alookup k rest

/-- Association-list removal of the first binding of a key. -/
def adelete (k : Nat) : List (Nat × α) → List (Nat × α)
  | [] => []
  | (k1, v) :: rest => if k1 = k then rest else (k1, v) :: adelete k rest

/-- Replace the value bound to a key in an association list. -/
def asetv (asa : Nat) (v : β) : List (Nat × β) → List (Nat × β)
  | [] => []
  | (k1, w) :: rest =>
    if k1 = asa then (asa, v) :: asetv asa v rest else (k1, w) :: asetv asa v rest

/-- Remove every binding of a key from an association list. -/
def adelAll (asa : Nat) : List (Nat × β) → List (Nat × β)
  | [] => []
  | (k1, w) :: rest => if k1 = asa then adelAll asa rest else (k1, w) :: adelAll asa rest

/-- A ledger account: its microalgo balance and its asset holdings, an
association list from asset id to held amount. An absent binding means
the account is not opted in to that asset. -/
structure Account where
  balance : Nat
  assets : List (AssetID × Nat)
deriving Repr, DecidableEq

/-- Whether the account is opted in to (registered for) the asset. -/
def Account.optedIn (a : Account) (asa : AssetID) : Bool :=
  (alookup asa a.assets).isSome

/-- The held amount of an asset, 0 when not opted in. -/
def Account.assetBalance (a : Account) (asa : AssetID) : Nat :=
  (alookup asa a.assets).getD 0

/-- Replace the held amount of an asset the account is opted in to. -/
def Account.setAsset (a : Account) (asa : AssetID) (v : Nat) : Account :=
  { a with assets := asetv asa v a.assets }

/-- Close out a holding, removing the asset registration. -/
def Account.delAsset (a : Account) (asa : AssetID) : Account :=
  { a with assets := adelAll asa a.assets }

/-- Global state as the router sees it: every account, the inbox
directory box map of the router application, each asset's creator
account, and a supply of fresh addresses for application accounts
produced by the controlled-address factory. -/
structure ChainState where
  accounts : Address → Account
  inboxes : List (Address × Address)
  assetCreator : AssetID → Address
  nextFresh : Address

/-- Point update of one account. -/
def setAccount (s : ChainState) (a : Address) (acc : Account) : ChainState :=
  { s with accounts := fun x => if x = a then acc else s.accounts x }

/-- Minimum balance of an account: base reserve, per-asset-opt-in
reserve, and, for the router application account, the box storage
reserve for the inbox directory entries it hosts. -/
def minBalanceOf (s : ChainState) (a : Address) : Nat :=
  gMinBalance + gAssetOptInMinBalance * (s.accounts a).assets.length
    + (if a = appAddr then inboxBoxMbr * s.inboxes.length else 0)

/-- The ledger's minimum-balance rule for one account: either the
account is empty (zero balance, no holdings) or it holds at least its
minimum balance. -/
def balanceOk (s : ChainState) (a : Address) : Prop :=
  ((s.accounts a).balance = 0 ∧ (s.accounts a).assets = []) ∨
    minBalanceOf s a ≤ (s.accounts a).balance

instance (s : ChainState) (a : Address) : Decidable (balanceOk s a) := by
  unfold balanceOk; infer_instance

/-- Failure conditions of the ledger primitives. An error aborts the
whole atomic group, so an erroring call yields no successor state at
all: nothing on the chain changes. -/
inductive Err where
  | invalidTransfer
  | boxNotFound
  | assetSenderNotOptedIn
  | assetReceiverNotOptedIn
  | insufficientAssetBalance
  | belowMinBalance
  | underflow
  | overflow
deriving Repr, DecidableEq

/-- Inner payment transaction: moves microalgos from sender to receiver,
then enforces the minimum-balance rule on both. -/
def payment (s : ChainState) (sender receiver : Address) (amount : Nat) :
    Except Err ChainState :=
  if amount ≤ (s.accounts sender).balance then
    let s1 := setAccount s sender
      { s.accounts sender with balance := (s.accounts sender).balance - amount }
    let newBal := (s1.accounts receiver).balance + amount
    if newBal < u64Bound then
      let s2 := setAccount s1 receiver { s1.accounts receiver with balance := newBal }
      if balanceOk s2 sender ∧ balanceOk s2 receiver then pure s2
      else throw .belowMinBalance
    else throw .overflow
  else throw .underflow

/-- Inner asset transfer transaction, covering the cases the router
issues: opt-in (a zero self-transfer by a sender with no holding),
plain transfer, and close-out when an asset close-to address is given.
Enforces opt-in rules and, on opt-in, the raised minimum balance. -/
def sendAssetTransfer (s : ChainState) (sender receiver : Address) (amount : Nat)
    (asa : AssetID) (closeTo : Option Address) : Except Err ChainState :=
  match alookup asa (s.accounts sender).assets with
  | none =>
    if sender = receiver ∧ amount = 0 ∧ closeTo = none then
      let s1 := setAccount s sender
        { s.accounts sender with assets := (asa, 0) :: (s.accounts sender).assets }
      if balanceOk s1 sender then pure s1 else throw .belowMinBalance
    else throw .assetSenderNotOptedIn
  | some b =>
    if amount ≤ b then
      if (s.accounts receiver).optedIn asa then
        let s1 := setAccount s sender ((s.accounts sender).setAsset asa (b - amount))
        let recvBal := (s1.accounts receiver).assetBalance asa
        if recvBal + amount < u64Bound then
          let s2 := setAccount s1 receiver
            ((s1.accounts receiver).setAsset asa (recvBal + amount))
          match closeTo with
          | none => pure s2
          | some c =>
            let rem := (s2.accounts sender).assetBalance asa
            let s3 := setAccount s2 sender ((s2.accounts sender).delAsset asa)
            if (s3.accounts c).optedIn asa then
              let cBal := (s3.accounts c).assetBalance asa
              if cBal + rem < u64Bound then
                pure (setAccount s3 c ((s3.accounts c).setAsset asa (cBal + rem)))
              else throw .overflow
            else throw .assetReceiverNotOptedIn
        else throw .overflow
      else throw .assetReceiverNotOptedIn
    else throw .insufficientAssetBalance

/-- The inbound asset transfer the caller co-submits with a send. -/
structure AssetTransferTxn where
  sender : Address
  assetReceiver : Address
  assetAmount : Nat
  xferAsset : AssetID
deriving Repr, DecidableEq

/-- Contract method: opt the router application account into an asset
via a zero self-transfer, as in the source's sendAssetTransfer call. -/
def arc59_optRouterIn (s : ChainState) (asa : AssetID) : Except Err ChainState :=
  sendAssetTransfer s appAddr appAddr 0 asa none

/-- Contract method: return the receiver's inbox from the directory, or
create one. The controlled-address factory's create, rekey-to-router,
self-delete sequence nets out to a fresh empty account under router
control, whose address is then recorded in the directory box. -/
def arc59_getOrCreateInbox (s : ChainState) (receiver : Address) :
    Address × ChainState :=
  match alookup receiver s.inboxes with
  | some v => (v, s)
  | none =>
    let inbox := s.nextFresh
    let s1 : ChainState :=
      { accounts := fun x => if x = inbox then { balance := 0, assets := [] } else s.accounts x
        inboxes := (receiver, inbox) :: s.inboxes
        assetCreator := s.assetCreator
        nextFresh := s.nextFresh + 1 }
    (inbox, s1)

/-- Result quadruple of the cost estimator. -/
structure SendAssetInfo where
  itxns : Nat
  mbr : Nat
  routerOptedIn : Bool
  receiverOptedIn : Bool
deriving Repr, DecidableEq

/-- Contract method: compute the inner-transaction count and the extra
minimum-balance funding a send will need. Mirrors the source, including
the probe that temporarily writes a sentinel directory entry to measure
the box reserve delta and deletes it again before returning. -/
def arc59_getSendAssetInfo (s : ChainState) (receiver : Address) (asset : AssetID) :
    SendAssetInfo × ChainState :=
  let routerOptedIn := (s.accounts appAddr).optedIn asset
  let receiverOptedIn := (s.accounts receiver).optedIn asset
  let info0 : SendAssetInfo :=
    { itxns := 1, mbr := 0, routerOptedIn := routerOptedIn, receiverOptedIn := receiverOptedIn }
  if receiverOptedIn then (info0, s)
  else
    let info1 :=
      if !routerOptedIn then
        { info0 with mbr := info0.mbr + gAssetOptInMinBalance, itxns := info0.itxns + 1 }
      else info0
    match alookup receiver s.inboxes with
    | none =>
      let info2 := { info1 with itxns := info1.itxns + 4 }
      let preMBR := minBalanceOf s appAddr
      let s1 := { s with inboxes := (receiver, zeroAddress) :: s.inboxes }
      let boxMbrDelta := minBalanceOf s1 appAddr - preMBR
      let s2 := { s1 with inboxes := adelete receiver s1.inboxes }
      ({ info2 with mbr := info2.mbr + boxMbrDelta + gMinBalance + gAssetOptInMinBalance }, s2)
    | some inbox =>
      if !(s.accounts inbox).optedIn asset then
        let info2 := { info1 with itxns := info1.itxns + 1 }
        if !((s.accounts inbox).balance ≥ minBalanceOf s inbox + gAssetOptInMinBalance) then
          ({ info2 with itxns := info2.itxns + 1, mbr := info2.mbr + gAssetOptInMinBalance }, s)
        else (info2, s)
      else (info1, s)

/-- The inbox minimum-balance delta computed inside sendAsset: the
asset opt-in reserve, plus the base existence reserve when the inbox
did not previously exist. -/
def inboxMbrDelta (inboxExisted : Bool) : Nat :=
  gAssetOptInMinBalance + (if !inboxExisted then gMinBalance else 0)

/-- The funding and opt-in step of sendAsset (source lines 155 to 174):
when the inbox is not yet opted in to the asset, fund the inbox from
the router when its balance is below its minimum balance plus the
delta, and opt the inbox in via a zero self-transfer. -/
def inboxOptInStep (s : ChainState) (inbox : Address) (asa : AssetID)
    (inboxExisted : Bool) : Except Err ChainState := do
  if !(s.accounts inbox).optedIn asa then
    let s2 ←
      if (s.accounts inbox).balance < minBalanceOf s inbox + inboxMbrDelta inboxExisted then
        payment s appAddr inbox (inboxMbrDelta inboxExisted)
      else pure s
    sendAssetTransfer s2 inbox inbox 0 asa none
  else pure s

/-- Contract method: deliver an inbound asset transfer either directly
to an opted-in receiver or custodially to the receiver's (possibly
newly created) inbox, funding and opting the inbox in as needed. -/
def arc59_sendAsset (s : ChainState) (axfer : AssetTransferTxn) (receiver : Address) :
    Except Err (Address × ChainState) := do
  if axfer.assetReceiver = appAddr then
    if (s.accounts receiver).optedIn axfer.xferAsset then do
      let s1 ← sendAssetTransfer s appAddr receiver axfer.assetAmount axfer.xferAsset none
      pure (receiver, s1)
    else do
      let inboxExisted := (alookup receiver s.inboxes).isSome
      let p := arc59_getOrCreateInbox s receiver
      let s2 ← inboxOptInStep p.2 p.1 axfer.xferAsset inboxExisted
      let s3 ← sendAssetTransfer s2 appAddr p.1 axfer.assetAmount axfer.xferAsset none
      pure (p.1, s3)
  else throw .invalidTransfer

/-- Contract method: claim an asset from the caller's inbox, closing the
full holding out to the caller and then paying the inbox's balance
above its now-lower minimum to the caller. The directory read of a
missing key aborts, and on-chain subtraction aborts on underflow. -/
def arc59_claim (s : ChainState) (caller : Address) (asa : AssetID) :
    Except Err ChainState := do
  match alookup caller s.inboxes with
  | none => throw .boxNotFound
  | some inbox => do
    let s1 ← sendAssetTransfer s inbox caller
      ((s.accounts inbox).assetBalance asa) asa (some caller)
    if minBalanceOf s1 inbox ≤ (s1.accounts inbox).balance then
      payment s1 inbox caller ((s1.accounts inbox).balance - minBalanceOf s1 inbox)
    else throw .underflow

/-- Contract method: reject an asset by closing the caller's inbox
holding out to the asset's creator, then paying the inbox's balance
above its now-lower minimum to the caller. -/
def arc59_reject (s : ChainState) (caller : Address) (asa : AssetID) :
    Except Err ChainState := do
  match alookup caller s.inboxes with
  | none => throw .boxNotFound
  | some inbox => do
    let s1 ← sendAssetTransfer s inbox (s.assetCreator asa)
      ((s.accounts inbox).assetBalance asa) asa (some (s.assetCreator asa))
    if minBalanceOf s1 inbox ≤ (s1.accounts inbox).balance then
      payment s1 inbox caller ((s1.accounts inbox).balance - minBalanceOf s1 inbox)
    else throw .underflow

/-- Contract method: read-only directory probe, returning the zero
address when the receiver has no inbox. -/
def arc59_getInbox (s : ChainState) (receiver : Address) : Address :=
  match alookup receiver s.inboxes with
  | some v => v
  | none => zeroAddress

/-! ## Association-list lemmas -/

theorem alookup_nil (k : Nat) : alookup (α := α) k [] = none := rfl

theorem alookup_cons (k k1 : Nat) (v : α) (l : List (Nat × α)) :
    alookup k ((k1, v) :: l) = if k1 = k then some v else alookup k l := rfl

theorem adelete_cons (k k1 : Nat) (v : α) (l : List (Nat × α)) :
    adelete k ((k1, v) :: l) = if k1 = k then l else (k1, v) :: adelete k l := rfl

theorem alookup_asetv_self (asa : Nat) (v : β) (l : List (Nat × β)) :
    alookup asa (asetv asa v l) = (alookup asa l).map (fun _ => v) := by
  induction l with
  | nil => rfl
  | cons p rest ih =>
    obtain ⟨k1, w⟩ := p
    by_cases h : k1 = asa
    · subst h; simp [asetv, alookup_cons, ih]
    · simp [asetv, alookup_cons, h, ih]

theorem alookup_asetv_ne (asa k : Nat) (v : β) (l : List (Nat × β)) (h : k ≠ asa) :
    alookup k (asetv asa v l) = alookup k l := by
  induction l with
  | nil => rfl
  | cons p rest ih =>
    obtain ⟨k1, w⟩ := p
    by_cases h1 : k1 = asa
    · subst h1
      have h2 : k1 ≠ k := fun hc => h hc.symm
      simp [asetv, alookup_cons, h2, ih]
    · by_cases h2 : k1 = k <;> simp [asetv, alookup_cons, h, h1, h2, ih]

theorem alookup_adelAll_self (asa : Nat) (l : List (Nat × β)) :
    alookup asa (adelAll asa l) = none := by
  induction l with
  | nil => rfl
  | cons p rest ih =>
    obtain ⟨k1, w⟩ := p
    by_cases h : k1 = asa
    · subst h; simp [adelAll, ih]
    · simp [adelAll, alookup_cons, h, ih]

theorem alookup_adelAll_ne (asa k : Nat) (l : List (Nat × β)) (h : k ≠ asa) :
    alookup k (adelAll asa l) = alookup k l := by
  induction l with
  | nil => rfl
  | cons p rest ih =>
    obtain ⟨k1, w⟩ := p
    by_cases h1 : k1 = asa
    · subst h1
      have h2 : k1 ≠ k := fun hc => h hc.symm
      simp [adelAll, alookup_cons, h2, ih]
    · by_cases h2 : k1 = k <;> simp [adelAll, alookup_cons, h, h1, h2, ih]

theorem asetv_fsts (asa : Nat) (v : β) (l : List (Nat × β)) :
    (asetv asa v l).map Prod.fst = l.map Prod.fst := by
  induction l with
  | nil => rfl
  | cons p rest ih =>
    obtain ⟨k1, w⟩ := p
    by_cases h : k1 = asa
    · subst h; simp [asetv, ih]
    · simp [asetv, h, ih]

theorem asetv_length (asa : Nat) (v : β) (l : List (Nat × β)) :
    (asetv asa v l).length = l.length := by
  induction l with
  | nil => rfl
  | cons p rest ih =>
    obtain ⟨k1, w⟩ := p
    by_cases h : k1 = asa
    · subst h; simp [asetv, ih]
    · simp [asetv, h, ih]

theorem adelAll_of_not_mem (asa : Nat) (l : List (Nat × β))
    (h : asa ∉ l.map Prod.fst) : adelAll asa l = l := by
  induction l with
  | nil => rfl
  | cons p rest ih =>
    obtain ⟨k1, w⟩ := p
    simp only [List.map_cons, List.mem_cons] at h
    push_neg at h
    have h1 : k1 ≠ asa := fun hc => h.1 hc.symm
    simp [adelAll, h1, ih h.2]

theorem adelAll_length (asa : Nat) (l : List (Nat × β)) (b : β)
    (hnd : (l.map Prod.fst).Nodup) (h : alookup asa l = some b) :
    (adelAll asa l).length + 1 = l.length := by
  induction l with
  | nil => simp [alookup] at h
  | cons p rest ih =>
    obtain ⟨k1, w⟩ := p
    simp only [List.map_cons, List.nodup_cons] at hnd
    by_cases h1 : k1 = asa
    · subst h1
      simp [adelAll, adelAll_of_not_mem k1 rest hnd.1]
    · simp only [alookup_cons, if_neg h1] at h
      simp [adelAll, h1, ih hnd.2 h]

/-! ## Frame lemmas for the state primitives -/

theorem setAccount_accounts (s : ChainState) (a : Address) (acc : Account) (x : Address) :
    (setAccount s a acc).accounts x = if x = a then acc else s.accounts x := rfl

theorem setAccount_inboxes (s : ChainState) (a : Address) (acc : Account) :
    (setAccount s a acc).inboxes = s.inboxes := rfl

theorem setAccount_assetCreator (s : ChainState) (a : Address) (acc : Account) :
    (setAccount s a acc).assetCreator = s.assetCreator := rfl

theorem setAccount_nextFresh (s : ChainState) (a : Address) (acc : Account) :
    (setAccount s a acc).nextFresh = s.nextFresh := rfl

theorem payment_inboxes (s t : ChainState) (p q : Address) (amt : Nat)
    (h : payment s p q amt = .ok t) : t.inboxes = s.inboxes := by
  simp only [payment] at h
  split at h
  · split at h
    · split at h
      · cases h; rfl
      · cases h
    · cases h
  · cases h

theorem sendAssetTransfer_inboxes (s t : ChainState) (p q : Address) (amt : Nat)
    (asa : AssetID) (c : Option Address)
    (h : sendAssetTransfer s p q amt asa c = .ok t) : t.inboxes = s.inboxes := by
  simp only [sendAssetTransfer] at h
  split at h
  · split at h
    · split at h
      · cases h; rfl
      · cases h
    · cases h
  · split at h
    · split at h
      · split at h
        · split at h
          · cases h; rfl
          · split at h
            · split at h
              · cases h; rfl
              · cases h
            · cases h
        · cases h
      · cases h
    · cases h

theorem ebind_ok (a : α) (f : α → Except Err β) :
    (Except.ok a >>= f) = f a := rfl

theorem ebind_err (e : Err) (f : α → Except Err β) :
    ((Except.error e : Except Err α) >>= f) = Except.error e := rfl

theorem epure_eq (a : α) : (pure a : Except Err α) = Except.ok a := rfl

theorem inboxOptInStep_inboxes (s t : ChainState) (i : Address) (asa : AssetID) (ex : Bool)
    (h : inboxOptInStep s i asa ex = .ok t) : t.inboxes = s.inboxes := by
  simp only [inboxOptInStep] at h
  split at h
  · split at h
    · cases hpay : payment s appAddr i (inboxMbrDelta ex) with
      | error e => rw [hpay, ebind_err] at h; cases h
      | ok u =>
        rw [hpay, ebind_ok] at h
        rw [sendAssetTransfer_inboxes u t i i 0 asa none h]
        exact payment_inboxes s u appAddr i _ hpay
    · rw [epure_eq, ebind_ok] at h
      exact sendAssetTransfer_inboxes s t i i 0 asa none h
  · rw [epure_eq] at h; cases h; rfl

/-- Minimum balances only depend on an account's holding count and on
the directory size, never on balances. -/
theorem minBalanceOf_len (s t : ChainState) (a : Address)
    (hlen : (t.accounts a).assets.length = (s.accounts a).assets.length)
    (hin : t.inboxes.length = s.inboxes.length) :
    minBalanceOf t a = minBalanceOf s a := by
  unfold minBalanceOf; rw [hlen, hin]

theorem payment_props (s t : ChainState) (p q : Address) (amt : Nat) (hpq : p ≠ q)
    (h : payment s p q amt = .ok t) :
    t.inboxes = s.inboxes ∧ t.assetCreator = s.assetCreator ∧ t.nextFresh = s.nextFresh ∧
    (t.accounts p).balance = (s.accounts p).balance - amt ∧
    (t.accounts p).assets = (s.accounts p).assets ∧
    (t.accounts q).balance = (s.accounts q).balance + amt ∧
    (t.accounts q).assets = (s.accounts q).assets ∧
    (∀ x, x ≠ p → x ≠ q → t.accounts x = s.accounts x) := by
  have hqp : q ≠ p := Ne.symm hpq
  simp only [payment] at h
  split at h
  · split at h
    · split at h
      · cases h
        refine ⟨rfl, rfl, rfl, ?_, ?_, ?_, ?_, ?_⟩
        · simp [setAccount_accounts, hpq]
        · simp [setAccount_accounts, hpq]
        · simp [setAccount_accounts, hqp]
        · simp [setAccount_accounts, hqp]
        · intro x hxp hxq; simp [setAccount_accounts, hxp, hxq]
      · cases h
    · cases h
  · cases h

theorem payment_isOk (s : ChainState) (p q : Address) (amt : Nat) (hpq : p ≠ q)
    (h1 : amt ≤ (s.accounts p).balance)
    (h2 : (s.accounts q).balance + amt < u64Bound)
    (h3 : minBalanceOf s p ≤ (s.accounts p).balance - amt)
    (h4 : minBalanceOf s q ≤ (s.accounts q).balance + amt) :
    ∃ t, payment s p q amt = .ok t := by
  have hqp : q ≠ p := Ne.symm hpq
  have ha : ∀ acc : Account, (setAccount s p acc).accounts q = s.accounts q := by
    intro acc; simp [setAccount_accounts, hqp]
  simp only [payment]
  rw [if_pos h1, ha, if_pos h2]
  have hbp : balanceOk (setAccount
      (setAccount s p { s.accounts p with balance := (s.accounts p).balance - amt }) q
      { s.accounts q with balance := (s.accounts q).balance + amt }) p := by
    right
    have hm : minBalanceOf (setAccount
        (setAccount s p { s.accounts p with balance := (s.accounts p).balance - amt }) q
        { s.accounts q with balance := (s.accounts q).balance + amt }) p =
        minBalanceOf s p := by
      apply minBalanceOf_len <;> simp [setAccount_accounts, setAccount_inboxes, hpq]
    rw [hm]
    simpa [setAccount_accounts, hpq] using h3
  have hbq : balanceOk (setAccount
      (setAccount s p { s.accounts p with balance := (s.accounts p).balance - amt }) q
      { s.accounts q with balance := (s.accounts q).balance + amt }) q := by
    right
    have hm : minBalanceOf (setAccount
        (setAccount s p { s.accounts p with balance := (s.accounts p).balance - amt }) q
        { s.accounts q with balance := (s.accounts q).balance + amt }) q =
        minBalanceOf s q := by
      apply minBalanceOf_len <;> simp [setAccount_accounts, setAccount_inboxes, hqp]
    rw [hm]
    simpa [setAccount_accounts] using h4
  rw [if_pos ⟨hbp, hbq⟩]
  exact ⟨_, rfl⟩

theorem optIn_ok (s : ChainState) (i : Address) (asa : AssetID)
    (h0 : alookup asa (s.accounts i).assets = none)
    (hbal : minBalanceOf s i + gAssetOptInMinBalance ≤ (s.accounts i).balance) :
    sendAssetTransfer s i i 0 asa none =
      .ok (setAccount s i
        { s.accounts i with assets := (asa, 0) :: (s.accounts i).assets }) := by
  have hb1 : balanceOk (setAccount s i
      { s.accounts i with assets := (asa, 0) :: (s.accounts i).assets }) i := by
    right
    have hm : minBalanceOf (setAccount s i
        { s.accounts i with assets := (asa, 0) :: (s.accounts i).assets }) i =
        minBalanceOf s i + gAssetOptInMinBalance := by
      unfold minBalanceOf
      simp [setAccount_accounts, setAccount_inboxes]
      ring
    rw [hm]
    simpa [setAccount_accounts] using hbal
  simp only [sendAssetTransfer]
  split
  · simp only [if_pos hb1]
    rfl
  · rename_i b heq
    rw [h0] at heq; cases heq

theorem transfer_ok (s : ChainState) (p q : Address) (amt : Nat) (asa : AssetID) (b : Nat)
    (hpq : p ≠ q)
    (hb : alookup asa (s.accounts p).assets = some b)
    (hle : amt ≤ b)
    (hq : (s.accounts q).optedIn asa = true)
    (hov : (s.accounts q).assetBalance asa + amt < u64Bound) :
    ∃ t, sendAssetTransfer s p q amt asa none = .ok t ∧
      t.inboxes = s.inboxes ∧ t.assetCreator = s.assetCreator ∧ t.nextFresh = s.nextFresh ∧
      (t.accounts p).balance = (s.accounts p).balance ∧
      alookup asa (t.accounts p).assets = some (b - amt) ∧
      (t.accounts p).assets.length = (s.accounts p).assets.length ∧
      (t.accounts q).balance = (s.accounts q).balance ∧
      (t.accounts q).assetBalance asa = (s.accounts q).assetBalance asa + amt ∧
      (t.accounts q).assets.length = (s.accounts q).assets.length ∧
      (∀ x, x ≠ p → x ≠ q → t.accounts x = s.accounts x) := by
  have hqp : q ≠ p := Ne.symm hpq
  obtain ⟨w, hw⟩ : ∃ w, alookup asa (s.accounts q).assets = some w := by
    unfold Account.optedIn at hq
    exact Option.isSome_iff_exists.mp hq
  simp only [sendAssetTransfer]
  split
  · rename_i heq
    rw [hb] at heq; cases heq
  · rename_i b1 heq
    rw [hb] at heq
    injection heq with hbe
    subst hbe
    rw [if_pos hle, if_pos hq]
    simp only [setAccount_accounts, if_neg hqp]
    rw [if_pos hov]
    refine ⟨_, rfl, rfl, rfl, rfl, ?_, ?_, ?_, ?_, ?_, ?_, ?_⟩
    · simp [setAccount_accounts, hpq, Account.setAsset]
    · simp [setAccount_accounts, hpq, Account.setAsset, alookup_asetv_self, hb]
    · simp [setAccount_accounts, hpq, Account.setAsset, asetv_length]
    · simp [setAccount_accounts, Account.setAsset]
    · simp [setAccount_accounts, Account.setAsset, Account.assetBalance,
        alookup_asetv_self, hw]
    · simp [setAccount_accounts, Account.setAsset, asetv_length]
    · intro x hxp hxq
      simp [setAccount_accounts, hxp, hxq]

theorem closeOut_ok (s : ChainState) (p r : Address) (asa : AssetID) (b : Nat)
    (hpr : p ≠ r)
    (hb : alookup asa (s.accounts p).assets = some b)
    (hr : (s.accounts r).optedIn asa = true)
    (hov : (s.accounts r).assetBalance asa + b < u64Bound) :
    ∃ t, sendAssetTransfer s p r b asa (some r) = .ok t ∧
      t.inboxes = s.inboxes ∧ t.assetCreator = s.assetCreator ∧ t.nextFresh = s.nextFresh ∧
      (t.accounts p).balance = (s.accounts p).balance ∧
      alookup asa (t.accounts p).assets = none ∧
      (t.accounts p).assets = adelAll asa (asetv asa (b - b) (s.accounts p).assets) ∧
      (t.accounts r).balance = (s.accounts r).balance ∧
      (t.accounts r).assetBalance asa = (s.accounts r).assetBalance asa + b ∧
      (t.accounts r).assets.length = (s.accounts r).assets.length ∧
      (∀ x, x ≠ p → x ≠ r → t.accounts x = s.accounts x) := by
  have hrp : r ≠ p := Ne.symm hpr
  obtain ⟨w, hw⟩ : ∃ w, alookup asa (s.accounts r).assets = some w := by
    unfold Account.optedIn at hr
    exact Option.isSome_iff_exists.mp hr
  simp only [sendAssetTransfer]
  split
  · rename_i heq
    rw [hb] at heq; cases heq
  · rename_i b1 heq
    rw [hb] at heq
    injection heq with hbe
    subst hbe
    rw [if_pos (le_refl b), if_pos hr]
    have hov2 : (s.accounts r).assetBalance asa + b < u64Bound := hov
    simp only [setAccount_accounts, if_neg hrp, if_neg hpr, eq_self_iff_true, if_true]
    rw [if_pos hov2]
    have hropt : ((s.accounts r).setAsset asa
        ((s.accounts r).assetBalance asa + b)).optedIn asa = true := by
      simp [Account.setAsset, Account.optedIn, alookup_asetv_self, hw]
    have hrem : (((s.accounts p).setAsset asa (b - b)).assetBalance asa) = 0 := by
      simp [Account.setAsset, Account.assetBalance, alookup_asetv_self, hb]
    have hov3 : ((s.accounts r).setAsset asa
        ((s.accounts r).assetBalance asa + b)).assetBalance asa +
        ((s.accounts p).setAsset asa (b - b)).assetBalance asa < u64Bound := by
      rw [hrem]
      simpa [Account.setAsset, Account.assetBalance, alookup_asetv_self, hw] using hov
    rw [if_pos hropt, if_pos hov3]
    refine ⟨_, rfl, rfl, rfl, rfl, ?_, ?_, ?_, ?_, ?_, ?_, ?_⟩
    · simp [setAccount_accounts, hpr, hrp, Account.setAsset, Account.delAsset]
    · simp [setAccount_accounts, hpr, hrp, Account.setAsset, Account.delAsset,
        alookup_adelAll_self]
    · simp [setAccount_accounts, hpr, hrp, Account.setAsset, Account.delAsset]
    · simp [setAccount_accounts, hpr, hrp, Account.setAsset]
    · simp [setAccount_accounts, hpr, hrp, Account.setAsset, Account.assetBalance,
        alookup_asetv_self, hw, hrem, hb]
    · simp [setAccount_accounts, hpr, hrp, Account.setAsset, asetv_length]
    · intro x hxp hxr
      simp [setAccount_accounts, hxp, hxr]

theorem inboxOptInStep_skip (s : ChainState) (i : Address) (asa : AssetID) (ex : Bool)
    (h : (s.accounts i).optedIn asa = true) :
    inboxOptInStep s i asa ex = .ok s := by
  simp [inboxOptInStep, h, epure_eq]

theorem inboxOptInStep_fund_ok (s : ChainState) (i : Address) (asa : AssetID) (ex : Bool)
    (hIa : i ≠ appAddr)
    (h0 : alookup asa (s.accounts i).assets = none)
    (hguard : (s.accounts i).balance < minBalanceOf s i + inboxMbrDelta ex)
    (hpay1 : inboxMbrDelta ex ≤ (s.accounts appAddr).balance)
    (hpay2 : (s.accounts i).balance + inboxMbrDelta ex < u64Bound)
    (hpay3 : minBalanceOf s appAddr ≤ (s.accounts appAddr).balance - inboxMbrDelta ex)
    (hpay4 : minBalanceOf s i + gAssetOptInMinBalance ≤
      (s.accounts i).balance + inboxMbrDelta ex) :
    ∃ t, inboxOptInStep s i asa ex = .ok t ∧
      t.inboxes = s.inboxes ∧ t.assetCreator = s.assetCreator ∧ t.nextFresh = s.nextFresh ∧
      (t.accounts i).balance = (s.accounts i).balance + inboxMbrDelta ex ∧
      (t.accounts i).assets = (asa, 0) :: (s.accounts i).assets ∧
      (t.accounts appAddr).balance = (s.accounts appAddr).balance - inboxMbrDelta ex ∧
      (t.accounts appAddr).assets = (s.accounts appAddr).assets ∧
      (∀ x, x ≠ i → x ≠ appAddr → t.accounts x = s.accounts x) := by
  have hopt : (s.accounts i).optedIn asa = false := by
    simp [Account.optedIn, h0]
  have hai : appAddr ≠ i := fun hc => hIa hc.symm
  have h4 : minBalanceOf s i ≤ (s.accounts i).balance + inboxMbrDelta ex :=
    le_trans (Nat.le_add_right _ _) hpay4
  obtain ⟨u, hu⟩ := payment_isOk s appAddr i (inboxMbrDelta ex) hai hpay1 hpay2 hpay3 h4
  obtain ⟨hu1, hu2, hu3, hu4, hu5, hu6, hu7, hu8⟩ := payment_props s u appAddr i _ hai hu
  have hmin : minBalanceOf u i = minBalanceOf s i := by
    apply minBalanceOf_len
    · rw [hu7]
    · rw [hu1]
  have h0u : alookup asa (u.accounts i).assets = none := by rw [hu7]; exact h0
  have hbalu : minBalanceOf u i + gAssetOptInMinBalance ≤ (u.accounts i).balance := by
    rw [hmin, hu6]; exact hpay4
  have hoi := optIn_ok u i asa h0u hbalu
  refine ⟨setAccount u i
    { u.accounts i with assets := (asa, 0) :: (u.accounts i).assets },
    ?_, ?_, ?_, ?_, ?_, ?_, ?_, ?_, ?_⟩
  · simp only [inboxOptInStep, hopt, Bool.not_false, if_true]
    rw [if_pos hguard, hu, ebind_ok, hoi]
  · rw [setAccount_inboxes, hu1]
  · rw [setAccount_assetCreator, hu2]
  · rw [setAccount_nextFresh, hu3]
  · simp [setAccount_accounts, hu6]
  · simp [setAccount_accounts, hu7]
  · rw [setAccount_accounts, if_neg hai]
    exact hu4
  · rw [setAccount_accounts, if_neg hai]
    exact hu5
  · intro x hxi hxa
    rw [setAccount_accounts, if_neg hxi]
    exact hu8 x hxa hxi

theorem getOrCreateInbox_existing (s : ChainState) (R v : Address)
    (h : alookup R s.inboxes = some v) : arc59_getOrCreateInbox s R = (v, s) := by
  simp [arc59_getOrCreateInbox, h]

theorem getOrCreateInbox_new (s : ChainState) (R : Address)
    (h : alookup R s.inboxes = none) :
    arc59_getOrCreateInbox s R =
      (s.nextFresh,
        { accounts := fun x =>
            if x = s.nextFresh then { balance := 0, assets := [] } else s.accounts x
          inboxes := (R, s.nextFresh) :: s.inboxes
          assetCreator := s.assetCreator
          nextFresh := s.nextFresh + 1 }) := by
  simp [arc59_getOrCreateInbox, h]

/-- The estimator's sentinel-write probe measures exactly the box
reserve charge of one directory entry. -/
theorem boxDelta (s : ChainState) (r : Address) :
    minBalanceOf { s with inboxes := (r, zeroAddress) :: s.inboxes } appAddr -
      minBalanceOf s appAddr = inboxBoxMbr := by
  unfold minBalanceOf inboxBoxMbr
  simp
  omega

theorem getSendAssetInfo_state (s : ChainState) (r : Address) (t : AssetID) :
    (arc59_getSendAssetInfo s r t).2 = s := by
  unfold arc59_getSendAssetInfo
  cases hl : alookup r s.inboxes with
  | none =>
    by_cases hro : (s.accounts r).optedIn t
    · simp [hro]
    · simp [hro, hl, adelete]
  | some v =>
    by_cases hro : (s.accounts r).optedIn t
    · simp [hro]
    · simp only [hro, Bool.false_eq_true, if_false, hl]
      split_ifs <;> rfl

theorem getSendAssetInfo_direct (s : ChainState) (r : Address) (t : AssetID)
    (h : (s.accounts r).optedIn t = true) :
    (arc59_getSendAssetInfo s r t).1.itxns = 1 ∧
      (arc59_getSendAssetInfo s r t).1.mbr = 0 := by
  simp [arc59_getSendAssetInfo, h]

theorem getSendAssetInfo_newbox (s : ChainState) (r : Address) (t : AssetID)
    (hro : (s.accounts appAddr).optedIn t = false)
    (hre : (s.accounts r).optedIn t = false)
    (hni : alookup r s.inboxes = none) :
    (arc59_getSendAssetInfo s r t).1.itxns = 6 ∧
      (arc59_getSendAssetInfo s r t).1.mbr = 328100 := by
  have hd := boxDelta s r
  simp only [arc59_getSendAssetInfo, hro, hre, hni, Bool.false_eq_true, if_false,
    Bool.not_false, if_true]
  refine ⟨trivial, ?_⟩
  simp only [hd]
  rfl

theorem sendAsset_direct_ok (s : ChainState) (ax : AssetTransferTxn) (r : Address)
    (bApp : Nat)
    (hax : ax.assetReceiver = appAddr)
    (hr : (s.accounts r).optedIn ax.xferAsset = true)
    (hra : r ≠ appAddr)
    (hb : alookup ax.xferAsset (s.accounts appAddr).assets = some bApp)
    (hle : ax.assetAmount ≤ bApp)
    (hov : (s.accounts r).assetBalance ax.xferAsset + ax.assetAmount < u64Bound) :
    ∃ t, arc59_sendAsset s ax r = .ok (r, t) ∧
      t.inboxes = s.inboxes ∧
      (t.accounts r).assetBalance ax.xferAsset =
        (s.accounts r).assetBalance ax.xferAsset + ax.assetAmount ∧
      (t.accounts r).balance = (s.accounts r).balance := by
  have hap : appAddr ≠ r := fun hc => hra hc.symm
  obtain ⟨t, ht, h1, h2, h3, h4, h5, h6, h7, h8, h9, h10⟩ :=
    transfer_ok s appAddr r ax.assetAmount ax.xferAsset bApp hap hb hle hr hov
  refine ⟨t, ?_, h1, h8, h7⟩
  simp only [arc59_sendAsset]
  rw [if_pos hax, if_pos hr, ht, ebind_ok]
  rfl

theorem sendAsset_custodial_shape (s t : ChainState) (ax : AssetTransferTxn)
    (r a : Address)
    (hr : (s.accounts r).optedIn ax.xferAsset = false)
    (h : arc59_sendAsset s ax r = .ok (a, t)) :
    a = (arc59_getOrCreateInbox s r).1 ∧
      t.inboxes = (arc59_getOrCreateInbox s r).2.inboxes := by
  simp only [arc59_sendAsset] at h
  split at h
  · split at h
    · rename_i hopt
      rw [hr] at hopt
      cases hopt
    · cases hm : inboxOptInStep (arc59_getOrCreateInbox s r).2
          (arc59_getOrCreateInbox s r).1 ax.xferAsset (alookup r s.inboxes).isSome with
      | error e => rw [hm, ebind_err] at h; cases h
      | ok u =>
        rw [hm, ebind_ok] at h
        cases hx : sendAssetTransfer u appAddr (arc59_getOrCreateInbox s r).1
            ax.assetAmount ax.xferAsset none with
        | error e => rw [hx, ebind_err] at h; cases h
        | ok v =>
          rw [hx, ebind_ok, epure_eq] at h
          cases h
          exact ⟨rfl, (sendAssetTransfer_inboxes u _ appAddr _ _ _ _ hx).trans
            (inboxOptInStep_inboxes _ u _ _ _ hm)⟩
  · cases h

theorem sendAsset_preserves_entry (s t : ChainState) (ax : AssetTransferTxn)
    (r1 a R v : Address)
    (hRv : alookup R s.inboxes = some v)
    (h : arc59_sendAsset s ax r1 = .ok (a, t)) :
    alookup R t.inboxes = some v := by
  by_cases hr : (s.accounts r1).optedIn ax.xferAsset = true
  · -- direct delivery: the box map is untouched
    simp only [arc59_sendAsset] at h
    split at h
    · cases hx : sendAssetTransfer s appAddr r1 ax.assetAmount ax.xferAsset none with
      | error e => rw [hx, ebind_err] at h; cases h
      | ok w =>
        rw [hx, ebind_ok, epure_eq] at h
        cases h
        rw [sendAssetTransfer_inboxes s _ appAddr _ _ _ _ hx]
        exact hRv
    · cases h
  · have hrf : (s.accounts r1).optedIn ax.xferAsset = false := by
      cases hq : (s.accounts r1).optedIn ax.xferAsset
      · rfl
      · exact absurd hq hr
    obtain ⟨ha, hin⟩ := sendAsset_custodial_shape s t ax r1 a hrf h
    cases hl : alookup r1 s.inboxes with
    | some w =>
      rw [getOrCreateInbox_existing s r1 w hl] at hin
      rw [hin]
      exact hRv
    | none =>
      rw [getOrCreateInbox_new s r1 hl] at hin
      have hne : r1 ≠ R := by
        intro he; subst he; rw [hl] at hRv; cases hRv
      rw [hin, alookup_cons, if_neg hne]
      exact hRv

theorem claim_state_inboxes (s t : ChainState) (c : Address) (asa : AssetID)
    (h : arc59_claim s c asa = .ok t) : t.inboxes = s.inboxes := by
  simp only [arc59_claim] at h
  split at h
  · cases h
  · rename_i inbox heq
    cases hx : sendAssetTransfer s inbox c ((s.accounts inbox).assetBalance asa) asa
        (some c) with
    | error e => rw [hx, ebind_err] at h; cases h
    | ok u =>
      rw [hx, ebind_ok] at h
      split at h
      · rw [payment_inboxes u t inbox c _ h]
        exact sendAssetTransfer_inboxes s u inbox c _ _ _ hx
      · cases h

theorem reject_state_inboxes (s t : ChainState) (c : Address) (asa : AssetID)
    (h : arc59_reject s c asa = .ok t) : t.inboxes = s.inboxes := by
  simp only [arc59_reject] at h
  split at h
  · cases h
  · rename_i inbox heq
    cases hx : sendAssetTransfer s inbox (s.assetCreator asa)
        ((s.accounts inbox).assetBalance asa) asa (some (s.assetCreator asa)) with
    | error e => rw [hx, ebind_err] at h; cases h
    | ok u =>
      rw [hx, ebind_ok] at h
      split at h
      · rw [payment_inboxes u t inbox c _ h]
        exact sendAssetTransfer_inboxes s u inbox _ _ _ _ hx
      · cases h

theorem optRouterIn_state_inboxes (s t : ChainState) (asa : AssetID)
    (h : arc59_optRouterIn s asa = .ok t) : t.inboxes = s.inboxes :=
  sendAssetTransfer_inboxes s t appAddr appAddr 0 asa none h

/-- Full characterisation of a successful claim: the inbox holding is
closed out to the caller and the inbox's microalgos above its new,
lower minimum are paid out, leaving the inbox exactly at that minimum. -/
theorem claim_spec (s : ChainState) (caller I : Address) (T : AssetID) (b : Nat)
    (hI : alookup caller s.inboxes = some I)
    (hIc : I ≠ caller) (hIa : I ≠ appAddr)
    (hb : alookup T (s.accounts I).assets = some b)
    (hnd : ((s.accounts I).assets.map Prod.fst).Nodup)
    (hC : (s.accounts caller).optedIn T = true)
    (hbalI : minBalanceOf s I ≤ (s.accounts I).balance)
    (hbalC : minBalanceOf s caller ≤ (s.accounts caller).balance)
    (hovA : (s.accounts caller).assetBalance T + b < u64Bound)
    (hovB : (s.accounts caller).balance + (s.accounts I).balance < u64Bound) :
    ∃ t, arc59_claim s caller T = .ok t ∧
      (t.accounts I).optedIn T = false ∧
      (t.accounts I).balance = minBalanceOf t I ∧
      minBalanceOf t I + gAssetOptInMinBalance = minBalanceOf s I ∧
      (t.accounts caller).assetBalance T = (s.accounts caller).assetBalance T + b ∧
      (t.accounts caller).balance =
        (s.accounts caller).balance + ((s.accounts I).balance - minBalanceOf t I) := by
  have hab : (s.accounts I).assetBalance T = b := by
    simp [Account.assetBalance, hb]
  obtain ⟨t1, ht1, q1, q2, q3, q4, q5, q6, q7, q8, q9, q10⟩ :=
    closeOut_ok s I caller T b hIc hb hC hovA
  have hlen : (t1.accounts I).assets.length + 1 = (s.accounts I).assets.length := by
    rw [q6]
    have hnd2 : ((asetv T (b - b) (s.accounts I).assets).map Prod.fst).Nodup := by
      rw [asetv_fsts]; exact hnd
    have hlk : alookup T (asetv T (b - b) (s.accounts I).assets) = some (b - b) := by
      rw [alookup_asetv_self, hb]; rfl
    rw [adelAll_length T _ _ hnd2 hlk, asetv_length]
  have hminT1 : minBalanceOf t1 I + gAssetOptInMinBalance = minBalanceOf s I := by
    unfold minBalanceOf
    rw [if_neg hIa, if_neg hIa, ← hlen]
    ring
  have hm'le : minBalanceOf t1 I ≤ (t1.accounts I).balance := by
    rw [q4]
    calc minBalanceOf t1 I ≤ minBalanceOf t1 I + gAssetOptInMinBalance :=
          Nat.le_add_right _ _
      _ = minBalanceOf s I := hminT1
      _ ≤ (s.accounts I).balance := hbalI
  have hmc : minBalanceOf t1 caller = minBalanceOf s caller := by
    apply minBalanceOf_len
    · exact q9
    · rw [q1]
  obtain ⟨t2, hp⟩ := payment_isOk t1 I caller
      ((t1.accounts I).balance - minBalanceOf t1 I) hIc
    (Nat.sub_le _ _)
    (by
      rw [q7]
      calc (s.accounts caller).balance +
            ((t1.accounts I).balance - minBalanceOf t1 I) ≤
            (s.accounts caller).balance + (t1.accounts I).balance :=
          Nat.add_le_add_left (Nat.sub_le _ _) _
        _ = (s.accounts caller).balance + (s.accounts I).balance := by rw [q4]
        _ < u64Bound := hovB)
    (by rw [Nat.sub_sub_self hm'le])
    (by
      rw [hmc, q7]
      exact le_trans hbalC (Nat.le_add_right _ _))
  obtain ⟨p1, p2, p3, p4, p5, p6, p7, p8⟩ := payment_props t1 t2 I caller _ hIc hp
  have hmt2 : minBalanceOf t2 I = minBalanceOf t1 I := by
    apply minBalanceOf_len
    · rw [p5]
    · rw [p1]
  refine ⟨t2, ?_, ?_, ?_, ?_, ?_, ?_⟩
  · simp only [arc59_claim, hI, hab]
    rw [ht1, ebind_ok, if_pos hm'le]
    exact hp
  · simp only [Account.optedIn]
    rw [p5, q5]
    rfl
  · rw [p4, hmt2, Nat.sub_sub_self hm'le]
  · rw [hmt2]
    exact hminT1
  · simp only [Account.assetBalance]
    rw [p7]
    exact q8
  · rw [p6, q7, q4, hmt2]

/-- Full characterisation of a successful reject: identical to claim
except that the asset close-out goes to the asset's creator; the
residual microalgo payment still goes to the caller. -/
theorem reject_spec (s : ChainState) (caller I : Address) (T : AssetID) (b : Nat)
    (hI : alookup caller s.inboxes = some I)
    (hIc : I ≠ caller) (hIa : I ≠ appAddr)
    (hb : alookup T (s.accounts I).assets = some b)
    (hnd : ((s.accounts I).assets.map Prod.fst).Nodup)
    (hcrO : (s.accounts (s.assetCreator T)).optedIn T = true)
    (hcrI : I ≠ s.assetCreator T)
    (hcrC : s.assetCreator T ≠ caller)
    (hbalI : minBalanceOf s I ≤ (s.accounts I).balance)
    (hbalC : minBalanceOf s caller ≤ (s.accounts caller).balance)
    (hovA : (s.accounts (s.assetCreator T)).assetBalance T + b < u64Bound)
    (hovB : (s.accounts caller).balance + (s.accounts I).balance < u64Bound) :
    ∃ t, arc59_reject s caller T = .ok t ∧
      (t.accounts I).optedIn T = false ∧
      (t.accounts I).balance = minBalanceOf t I ∧
      minBalanceOf t I + gAssetOptInMinBalance = minBalanceOf s I ∧
      (t.accounts (s.assetCreator T)).assetBalance T =
        (s.accounts (s.assetCreator T)).assetBalance T + b ∧
      (t.accounts caller).assetBalance T = (s.accounts caller).assetBalance T ∧
      (t.accounts caller).balance =
        (s.accounts caller).balance + ((s.accounts I).balance - minBalanceOf t I) := by
  have hab : (s.accounts I).assetBalance T = b := by
    simp [Account.assetBalance, hb]
  have hcC : caller ≠ s.assetCreator T := fun hc => hcrC hc.symm
  have hcI : caller ≠ I := fun hc => hIc hc.symm
  obtain ⟨t1, ht1, q1, q2, q3, q4, q5, q6, q7, q8, q9, q10⟩ :=
    closeOut_ok s I (s.assetCreator T) T b hcrI hb hcrO hovA
  have hcacc : t1.accounts caller = s.accounts caller := q10 caller hcI hcC
  have hlen : (t1.accounts I).assets.length + 1 = (s.accounts I).assets.length := by
    rw [q6]
    have hnd2 : ((asetv T (b - b) (s.accounts I).assets).map Prod.fst).Nodup := by
      rw [asetv_fsts]; exact hnd
    have hlk : alookup T (asetv T (b - b) (s.accounts I).assets) = some (b - b) := by
      rw [alookup_asetv_self, hb]; rfl
    rw [adelAll_length T _ _ hnd2 hlk, asetv_length]
  have hminT1 : minBalanceOf t1 I + gAssetOptInMinBalance = minBalanceOf s I := by
    unfold minBalanceOf
    rw [if_neg hIa, if_neg hIa, ← hlen]
    ring
  have hm'le : minBalanceOf t1 I ≤ (t1.accounts I).balance := by
    rw [q4]
    calc minBalanceOf t1 I ≤ minBalanceOf t1 I + gAssetOptInMinBalance :=
          Nat.le_add_right _ _
      _ = minBalanceOf s I := hminT1
      _ ≤ (s.accounts I).balance := hbalI
  have hmc : minBalanceOf t1 caller = minBalanceOf s caller := by
    apply minBalanceOf_len
    · rw [hcacc]
    · rw [q1]
  obtain ⟨t2, hp⟩ := payment_isOk t1 I caller
      ((t1.accounts I).balance - minBalanceOf t1 I) hIc
    (Nat.sub_le _ _)
    (by
      rw [hcacc]
      calc (s.accounts caller).balance +
            ((t1.accounts I).balance - minBalanceOf t1 I) ≤
            (s.accounts caller).balance + (t1.accounts I).balance :=
          Nat.add_le_add_left (Nat.sub_le _ _) _
        _ = (s.accounts caller).balance + (s.accounts I).balance := by rw [q4]
        _ < u64Bound := hovB)
    (by rw [Nat.sub_sub_self hm'le])
    (by
      rw [hmc, hcacc]
      exact le_trans hbalC (Nat.le_add_right _ _))
  obtain ⟨p1, p2, p3, p4, p5, p6, p7, p8⟩ := payment_props t1 t2 I caller _ hIc hp
  have hmt2 : minBalanceOf t2 I = minBalanceOf t1 I := by
    apply minBalanceOf_len
    · rw [p5]
    · rw [p1]
  have hcr2 : t2.accounts (s.assetCreator T) = t1.accounts (s.assetCreator T) :=
    p8 (s.assetCreator T) (fun hc => hcrI hc.symm) hcrC
  refine ⟨t2, ?_, ?_, ?_, ?_, ?_, ?_, ?_⟩
  · simp only [arc59_reject, hI, hab]
    rw [ht1, ebind_ok, if_pos hm'le]
    exact hp
  · simp only [Account.optedIn]
    rw [p5, q5]
    rfl
  · rw [p4, hmt2, Nat.sub_sub_self hm'le]
  · rw [hmt2]
    exact hminT1
  · rw [hcr2]
    exact q8
  · simp only [Account.assetBalance]
    rw [p7, hcacc]
  · rw [p6, hcacc, q4, hmt2]

/-- A close-out whose sender holds no registration for the asset fails:
this is the NothingToClaim condition of the specification. -/
theorem closeOut_noHolding (s : ChainState) (p r : Address) (amt : Nat) (asa : AssetID)
    (c : Address)
    (h0 : alookup asa (s.accounts p).assets = none) :
    sendAssetTransfer s p r amt asa (some c) = .error .assetSenderNotOptedIn := by
  simp only [sendAssetTransfer, h0]
  rw [if_neg (fun hc => Option.noConfusion hc.2.2)]
  rfl

theorem claim_notOptedIn_err (s : ChainState) (caller I : Address) (T : AssetID)
    (hI : alookup caller s.inboxes = some I)
    (h0 : alookup T (s.accounts I).assets = none) :
    arc59_claim s caller T = .error .assetSenderNotOptedIn := by
  simp only [arc59_claim, hI]
  rw [closeOut_noHolding s I caller _ T caller h0, ebind_err]

theorem reject_notOptedIn_err (s : ChainState) (caller I : Address) (T : AssetID)
    (hI : alookup caller s.inboxes = some I)
    (h0 : alookup T (s.accounts I).assets = none) :
    arc59_reject s caller T = .error .assetSenderNotOptedIn := by
  simp only [arc59_reject, hI]
  rw [closeOut_noHolding s I (s.assetCreator T) _ T (s.assetCreator T) h0, ebind_err]

theorem claim_noEntry_err (s : ChainState) (caller : Address) (T : AssetID)
    (h : alookup caller s.inboxes = none) :
    arc59_claim s caller T = .error .boxNotFound := by
  simp only [arc59_claim, h]
  rfl

theorem reject_noEntry_err (s : ChainState) (caller : Address) (T : AssetID)
    (h : alookup caller s.inboxes = none) :
    arc59_reject s caller T = .error .boxNotFound := by
  simp only [arc59_reject, h]
  rfl

/-! ## Concrete ledgers used as witnesses -/

/-- The empty, nonexistent account. -/
def emptyAccount : Account := { balance := 0, assets := [] }

/-- A concrete ledger: the router (address 1) is opted in to asset 7
holding 50 units, recipient 2 owns inbox 10 which holds 9 units of
asset 7, account 3 created every asset, recipient 5 is directly opted
in to asset 7, recipient 4 is brand new, and asset 8 is unknown to the
router. -/
def wsMain : ChainState :=
  { accounts := fun x =>
      if x = 1 then { balance := 1000000, assets := [(7, 50)] }
      else if x = 2 then { balance := 300000, assets := [(7, 1)] }
      else if x = 3 then { balance := 500000, assets := [(7, 100)] }
      else if x = 5 then { balance := 200000, assets := [(7, 0)] }
      else if x = 10 then { balance := 250000, assets := [(7, 9)] }
      else emptyAccount
    inboxes := [(2, 10)]
    assetCreator := fun _ => 3
    nextFresh := 20 }

/-- A concrete inbound transfer of 4 units of asset 7 to the router. -/
def wsAx : AssetTransferTxn :=
  { sender := 6, assetReceiver := 1, assetAmount := 4, xferAsset := 7 }

/-- A concrete ledger where recipient 2's inbox 10 is not yet opted in
to asset 7 and holds 100001 microalgos: one more than its minimum
balance, but not enough to cover the opt-in reserve. -/
def wsC8 : ChainState :=
  { accounts := fun x =>
      if x = 1 then { balance := 1000000, assets := [(7, 50)] }
      else if x = 10 then { balance := 100001, assets := [] }
      else emptyAccount
    inboxes := [(2, 10)]
    assetCreator := fun _ => 3
    nextFresh := 20 }

/-! ## The claims -/

/-- C1: for a recipient R already opted in to token T, the estimator
reports itxns = 1 and mbr = 0, and sendAsset with a valid inbound
transfer of T delivers the full transferred amount directly to R,
returns R, and leaves the inbox directory untouched. -/
theorem C1_direct_send (s : ChainState) (ax : AssetTransferTxn) (R : Address)
    (T : AssetID) (bApp : Nat)
    (hax : ax.assetReceiver = appAddr)
    (hT : ax.xferAsset = T)
    (hR : (s.accounts R).optedIn T = true)
    (hRa : R ≠ appAddr)
    (hApp : alookup T (s.accounts appAddr).assets = some bApp)
    (hle : ax.assetAmount ≤ bApp)
    (hov : (s.accounts R).assetBalance T + ax.assetAmount < u64Bound) :
    (arc59_getSendAssetInfo s R T).1.itxns = 1 ∧
    (arc59_getSendAssetInfo s R T).1.mbr = 0 ∧
    ∃ t, arc59_sendAsset s ax R = .ok (R, t) ∧
      t.inboxes = s.inboxes ∧
      (t.accounts R).assetBalance T =
        (s.accounts R).assetBalance T + ax.assetAmount := by
  subst hT
  obtain ⟨h1, h2⟩ := getSendAssetInfo_direct s R ax.xferAsset hR
  obtain ⟨t, ht, hi, hb2, _⟩ := sendAsset_direct_ok s ax R bApp hax hR hRa hApp hle hov
  exact ⟨h1, h2, t, ht, hi, hb2⟩

theorem C1_direct_send_witness :
    (wsAx.assetReceiver = appAddr ∧ wsAx.xferAsset = 7 ∧
      (wsMain.accounts 5).optedIn 7 = true ∧ (5 : Address) ≠ appAddr ∧
      alookup 7 (wsMain.accounts appAddr).assets = some 50 ∧
      wsAx.assetAmount ≤ 50 ∧
      (wsMain.accounts 5).assetBalance 7 + wsAx.assetAmount < u64Bound) ∧
    ((arc59_getSendAssetInfo wsMain 5 7).1.itxns = 1 ∧
      (arc59_getSendAssetInfo wsMain 5 7).1.mbr = 0 ∧
      ∃ t, arc59_sendAsset wsMain wsAx 5 = .ok (5, t) ∧
        t.inboxes = wsMain.inboxes ∧
        (t.accounts 5).assetBalance 7 =
          (wsMain.accounts 5).assetBalance 7 + wsAx.assetAmount) :=
  ⟨by decide,
    C1_direct_send wsMain wsAx 5 7 50 (by decide) (by decide) (by decide) (by decide)
      (by decide) (by decide) (by decide)⟩

/-- C2 counterexample: for a brand-new recipient (4) and a token the
router is not opted in to (8), the estimator returns itxns = 6, not 5
as the claim states: the claim's enumeration forgets the base
forwarding transfer. -/
theorem C2_counterexample :
    (wsMain.accounts appAddr).optedIn 8 = false ∧
    (wsMain.accounts 4).optedIn 8 = false ∧
    alookup 4 wsMain.inboxes = none ∧
    (arc59_getSendAssetInfo wsMain 4 8).1.itxns = 6 ∧
    ¬ (arc59_getSendAssetInfo wsMain 4 8).1.itxns = 5 := by decide

/-- C2 (amended): for a recipient with no inbox entry who is not opted
in to the token, and a token the router is not opted in to, the
estimator returns itxns = 6 (base transfer, router opt-in, and four
inbox operations) and a strictly positive mbr of 328100 microalgos. -/
theorem C2_new_recipient_new_token (s : ChainState) (R : Address) (T : AssetID)
    (hro : (s.accounts appAddr).optedIn T = false)
    (hre : (s.accounts R).optedIn T = false)
    (hni : alookup R s.inboxes = none) :
    (arc59_getSendAssetInfo s R T).1.itxns = 6 ∧
    (arc59_getSendAssetInfo s R T).1.mbr = 328100 ∧
    0 < (arc59_getSendAssetInfo s R T).1.mbr := by
  obtain ⟨h1, h2⟩ := getSendAssetInfo_newbox s R T hro hre hni
  refine ⟨h1, h2, ?_⟩
  rw [h2]
  decide

theorem C2_new_recipient_new_token_witness :
    ((wsMain.accounts appAddr).optedIn 8 = false ∧
      (wsMain.accounts 4).optedIn 8 = false ∧
      alookup 4 wsMain.inboxes = none) ∧
    ((arc59_getSendAssetInfo wsMain 4 8).1.itxns = 6 ∧
      (arc59_getSendAssetInfo wsMain 4 8).1.mbr = 328100 ∧
      0 < (arc59_getSendAssetInfo wsMain 4 8).1.mbr) :=
  ⟨by decide, C2_new_recipient_new_token wsMain 4 8 (by decide) (by decide) (by decide)⟩

/-- C3: the estimator is read-only: for every recipient and token it
returns the chain state exactly as it was, including in the branch
where it temporarily writes a sentinel directory entry to measure the
box reserve delta and deletes it again. -/
theorem C3_estimator_read_only (s : ChainState) (R : Address) (T : AssetID) :
    (arc59_getSendAssetInfo s R T).2 = s :=
  getSendAssetInfo_state s R T

/-- C4: once the directory maps R to v, every operation of the contract
preserves that entry, and getOrCreateInbox returns the recorded
address without touching the state, so no second inbox is ever created
for R. -/
theorem C4_entry_stable (s : ChainState) (R v : Address)
    (hRv : alookup R s.inboxes = some v) :
    arc59_getOrCreateInbox s R = (v, s) ∧
    arc59_getInbox s R = v ∧
    (∀ r1, alookup R (arc59_getOrCreateInbox s r1).2.inboxes = some v) ∧
    (∀ r1 T, alookup R (arc59_getSendAssetInfo s r1 T).2.inboxes = some v) ∧
    (∀ ax r1 a t, arc59_sendAsset s ax r1 = .ok (a, t) →
      alookup R t.inboxes = some v) ∧
    (∀ c T t, arc59_claim s c T = .ok t → alookup R t.inboxes = some v) ∧
    (∀ c T t, arc59_reject s c T = .ok t → alookup R t.inboxes = some v) ∧
    (∀ T t, arc59_optRouterIn s T = .ok t → alookup R t.inboxes = some v) := by
  refine ⟨getOrCreateInbox_existing s R v hRv, ?_, ?_, ?_, ?_, ?_, ?_, ?_⟩
  · simp [arc59_getInbox, hRv]
  · intro r1
    cases hl : alookup r1 s.inboxes with
    | some w => rw [getOrCreateInbox_existing s r1 w hl]; exact hRv
    | none =>
      have hne : r1 ≠ R := by
        intro he; subst he; rw [hl] at hRv; cases hRv
      simp only [getOrCreateInbox_new s r1 hl]
      rw [alookup_cons, if_neg hne]
      exact hRv
  · intro r1 T
    rw [getSendAssetInfo_state s r1 T]
    exact hRv
  · intro ax r1 a t h
    exact sendAsset_preserves_entry s t ax r1 a R v hRv h
  · intro c T t h
    rw [claim_state_inboxes s t c T h]; exact hRv
  · intro c T t h
    rw [reject_state_inboxes s t c T h]; exact hRv
  · intro T t h
    rw [optRouterIn_state_inboxes s t T h]; exact hRv

theorem C4_entry_stable_witness :
    alookup 2 wsMain.inboxes = some 10 ∧
    arc59_getOrCreateInbox wsMain 2 = (10, wsMain) :=
  ⟨by decide, (C4_entry_stable wsMain 2 10 (by decide)).1⟩

/-- C5 counterexample: recipient 5 is directly opted in to asset 7, so
sendAsset succeeds delivering directly, yet getInbox afterwards still
returns the zero-address sentinel: the claim fails on the
direct-delivery branch, which never touches the directory. -/
theorem C5_counterexample :
    (arc59_sendAsset wsMain wsAx 5).map (fun p => (p.1, arc59_getInbox p.2 5)) =
      Except.ok (5, zeroAddress) := by rfl

/-- C5 (amended): after any successful custodial sendAsset (recipient
not opted in to the transferred token), getInbox returns the delivery
address, that address is non-sentinel, and any later custodial
sendAsset to the same recipient delivers to the same address. -/
theorem C5_custodial_inbox_stable (s : ChainState) (ax : AssetTransferTxn) (R : Address)
    (hre : (s.accounts R).optedIn ax.xferAsset = false)
    (hnz : alookup R s.inboxes ≠ some zeroAddress)
    (hfr : s.nextFresh ≠ zeroAddress) :
    ∀ a t, arc59_sendAsset s ax R = .ok (a, t) →
      arc59_getInbox t R = a ∧ a ≠ zeroAddress ∧
      ∀ ax2 a2 t2, (t.accounts R).optedIn ax2.xferAsset = false →
        arc59_sendAsset t ax2 R = .ok (a2, t2) → a2 = a := by
  intro a t h
  obtain ⟨ha, hin⟩ := sendAsset_custodial_shape s t ax R a hre h
  have hkey : alookup R t.inboxes = some a ∧ a ≠ zeroAddress := by
    cases hl : alookup R s.inboxes with
    | some w =>
      simp only [getOrCreateInbox_existing s R w hl] at ha hin
      subst ha
      refine ⟨by rw [hin]; exact hl, ?_⟩
      intro h0
      apply hnz
      rw [hl, h0]
    | none =>
      simp only [getOrCreateInbox_new s R hl] at ha hin
      subst ha
      refine ⟨?_, hfr⟩
      rw [hin, alookup_cons, if_pos rfl]
  refine ⟨?_, hkey.2, ?_⟩
  · simp [arc59_getInbox, hkey.1]
  · intro ax2 a2 t2 hre2 h2
    obtain ⟨ha2, _⟩ := sendAsset_custodial_shape t t2 ax2 R a2 hre2 h2
    rw [getOrCreateInbox_existing t R a hkey.1] at ha2
    exact ha2

theorem C5_custodial_inbox_stable_witness :
    ((wsMain.accounts 4).optedIn wsAx.xferAsset = false ∧
      alookup 4 wsMain.inboxes ≠ some zeroAddress ∧
      wsMain.nextFresh ≠ zeroAddress) ∧
    (∀ a t, arc59_sendAsset wsMain wsAx 4 = .ok (a, t) →
      arc59_getInbox t 4 = a ∧ a ≠ zeroAddress ∧
      ∀ ax2 a2 t2, (t.accounts 4).optedIn ax2.xferAsset = false →
        arc59_sendAsset t ax2 4 = .ok (a2, t2) → a2 = a) :=
  ⟨by refine ⟨by decide, by decide, by decide⟩,
    C5_custodial_inbox_stable wsMain wsAx 4 (by decide) (by decide) (by decide)⟩

/-- C6: for a caller whose inbox is opted in to token T with a non-zero
balance, claim and reject each close the entire T holding out of the
inbox, then pay exactly (inbox balance minus the inbox minimum balance
evaluated after the registration is closed) to the caller, leaving the
inbox holding exactly its new minimum balance. -/
theorem C6_claim_reject_drain (s : ChainState) (caller I : Address) (T : AssetID)
    (b : Nat)
    (hI : alookup caller s.inboxes = some I)
    (hIc : I ≠ caller) (hIa : I ≠ appAddr)
    (hb : alookup T (s.accounts I).assets = some b) (hbpos : 0 < b)
    (hnd : ((s.accounts I).assets.map Prod.fst).Nodup)
    (hC : (s.accounts caller).optedIn T = true)
    (hcrO : (s.accounts (s.assetCreator T)).optedIn T = true)
    (hcrI : I ≠ s.assetCreator T) (hcrC : s.assetCreator T ≠ caller)
    (hbalI : minBalanceOf s I ≤ (s.accounts I).balance)
    (hbalC : minBalanceOf s caller ≤ (s.accounts caller).balance)
    (hovA : (s.accounts caller).assetBalance T + b < u64Bound)
    (hovC : (s.accounts (s.assetCreator T)).assetBalance T + b < u64Bound)
    (hovB : (s.accounts caller).balance + (s.accounts I).balance < u64Bound) :
    (∃ t, arc59_claim s caller T = .ok t ∧
      (t.accounts I).optedIn T = false ∧
      (t.accounts I).balance = minBalanceOf t I ∧
      minBalanceOf t I + gAssetOptInMinBalance = minBalanceOf s I ∧
      (t.accounts caller).assetBalance T = (s.accounts caller).assetBalance T + b ∧
      (t.accounts caller).balance =
        (s.accounts caller).balance + ((s.accounts I).balance - minBalanceOf t I)) ∧
    (∃ t, arc59_reject s caller T = .ok t ∧
      (t.accounts I).optedIn T = false ∧
      (t.accounts I).balance = minBalanceOf t I ∧
      minBalanceOf t I + gAssetOptInMinBalance = minBalanceOf s I ∧
      (t.accounts caller).balance =
        (s.accounts caller).balance + ((s.accounts I).balance - minBalanceOf t I)) := by
  constructor
  · exact claim_spec s caller I T b hI hIc hIa hb hnd hC hbalI hbalC hovA hovB
  · obtain ⟨t, h1, h2, h3, h4, h5, h6, h7⟩ :=
      reject_spec s caller I T b hI hIc hIa hb hnd hcrO hcrI hcrC hbalI hbalC hovC hovB
    exact ⟨t, h1, h2, h3, h4, h7⟩

theorem C6_claim_reject_drain_witness :
    (alookup 2 wsMain.inboxes = some 10 ∧
      (10 : Address) ≠ 2 ∧ (10 : Address) ≠ appAddr ∧
      alookup 7 (wsMain.accounts 10).assets = some 9 ∧ 0 < 9 ∧
      ((wsMain.accounts 10).assets.map Prod.fst).Nodup ∧
      (wsMain.accounts 2).optedIn 7 = true ∧
      (wsMain.accounts (wsMain.assetCreator 7)).optedIn 7 = true ∧
      (10 : Address) ≠ wsMain.assetCreator 7 ∧ wsMain.assetCreator 7 ≠ 2 ∧
      minBalanceOf wsMain 10 ≤ (wsMain.accounts 10).balance ∧
      minBalanceOf wsMain 2 ≤ (wsMain.accounts 2).balance ∧
      (wsMain.accounts 2).assetBalance 7 + 9 < u64Bound ∧
      (wsMain.accounts (wsMain.assetCreator 7)).assetBalance 7 + 9 < u64Bound ∧
      (wsMain.accounts 2).balance + (wsMain.accounts 10).balance < u64Bound) ∧
    ((∃ t, arc59_claim wsMain 2 7 = .ok t ∧
      (t.accounts 10).optedIn 7 = false ∧
      (t.accounts 10).balance = minBalanceOf t 10 ∧
      minBalanceOf t 10 + gAssetOptInMinBalance = minBalanceOf wsMain 10 ∧
      (t.accounts 2).assetBalance 7 = (wsMain.accounts 2).assetBalance 7 + 9 ∧
      (t.accounts 2).balance =
        (wsMain.accounts 2).balance + ((wsMain.accounts 10).balance - minBalanceOf t 10)) ∧
    (∃ t, arc59_reject wsMain 2 7 = .ok t ∧
      (t.accounts 10).optedIn 7 = false ∧
      (t.accounts 10).balance = minBalanceOf t 10 ∧
      minBalanceOf t 10 + gAssetOptInMinBalance = minBalanceOf wsMain 10 ∧
      (t.accounts 2).balance =
        (wsMain.accounts 2).balance + ((wsMain.accounts 10).balance - minBalanceOf t 10))) :=
  ⟨by decide,
    C6_claim_reject_drain wsMain 2 10 7 9 (by decide) (by decide) (by decide) (by decide)
      (by decide) (by decide) (by decide) (by decide) (by decide) (by decide) (by decide)
      (by decide) (by decide) (by decide) (by decide)⟩

/-- C7: reject closes the full token holding out to the token's
creator, not to the caller (whose token balance is unchanged), while
the residual reserve-currency payment above the inbox's new minimum
still goes to the caller. -/
theorem C7_reject_to_creator (s : ChainState) (caller I : Address) (T : AssetID)
    (b : Nat)
    (hI : alookup caller s.inboxes = some I)
    (hIc : I ≠ caller) (hIa : I ≠ appAddr)
    (hb : alookup T (s.accounts I).assets = some b)
    (hnd : ((s.accounts I).assets.map Prod.fst).Nodup)
    (hcrO : (s.accounts (s.assetCreator T)).optedIn T = true)
    (hcrI : I ≠ s.assetCreator T) (hcrC : s.assetCreator T ≠ caller)
    (hbalI : minBalanceOf s I ≤ (s.accounts I).balance)
    (hbalC : minBalanceOf s caller ≤ (s.accounts caller).balance)
    (hovC : (s.accounts (s.assetCreator T)).assetBalance T + b < u64Bound)
    (hovB : (s.accounts caller).balance + (s.accounts I).balance < u64Bound) :
    ∃ t, arc59_reject s caller T = .ok t ∧
      (t.accounts (s.assetCreator T)).assetBalance T =
        (s.accounts (s.assetCreator T)).assetBalance T + b ∧
      (t.accounts caller).assetBalance T = (s.accounts caller).assetBalance T ∧
      (t.accounts I).optedIn T = false ∧
      (t.accounts caller).balance =
        (s.accounts caller).balance + ((s.accounts I).balance - minBalanceOf t I) := by
  obtain ⟨t, h1, h2, h3, h4, h5, h6, h7⟩ :=
    reject_spec s caller I T b hI hIc hIa hb hnd hcrO hcrI hcrC hbalI hbalC hovC hovB
  exact ⟨t, h1, h5, h6, h2, h7⟩

theorem C7_reject_to_creator_witness :
    (alookup 2 wsMain.inboxes = some 10 ∧
      (10 : Address) ≠ 2 ∧ (10 : Address) ≠ appAddr ∧
      alookup 7 (wsMain.accounts 10).assets = some 9 ∧
      ((wsMain.accounts 10).assets.map Prod.fst).Nodup ∧
      (wsMain.accounts (wsMain.assetCreator 7)).optedIn 7 = true ∧
      (10 : Address) ≠ wsMain.assetCreator 7 ∧ wsMain.assetCreator 7 ≠ 2 ∧
      minBalanceOf wsMain 10 ≤ (wsMain.accounts 10).balance ∧
      minBalanceOf wsMain 2 ≤ (wsMain.accounts 2).balance ∧
      (wsMain.accounts (wsMain.assetCreator 7)).assetBalance 7 + 9 < u64Bound ∧
      (wsMain.accounts 2).balance + (wsMain.accounts 10).balance < u64Bound) ∧
    (∃ t, arc59_reject wsMain 2 7 = .ok t ∧
      (t.accounts (wsMain.assetCreator 7)).assetBalance 7 =
        (wsMain.accounts (wsMain.assetCreator 7)).assetBalance 7 + 9 ∧
      (t.accounts 2).assetBalance 7 = (wsMain.accounts 2).assetBalance 7 ∧
      (t.accounts 10).optedIn 7 = false ∧
      (t.accounts 2).balance =
        (wsMain.accounts 2).balance + ((wsMain.accounts 10).balance - minBalanceOf t 10)) :=
  ⟨by decide,
    C7_reject_to_creator wsMain 2 10 7 9 (by decide) (by decide) (by decide) (by decide)
      (by decide) (by decide) (by decide) (by decide) (by decide) (by decide) (by decide)
      (by decide)⟩

/-- C8 counterexample: inbox 10 exists with balance 100001, one above
its 100000 minimum. The claimed strict shortfall to reach the
post-registration minimum 200000 would be 99999, but the router pays
the fixed delta 100000, leaving the inbox at 200001, strictly above
its new minimum of 200000. -/
theorem C8_counterexample :
    (arc59_sendAsset wsC8 wsAx 2).map
        (fun p => ((p.2.accounts 10).balance, minBalanceOf p.2 10)) =
      Except.ok (200001, 200000) ∧ (200001 : Nat) ≠ 200000 := by
  constructor
  · rfl
  · decide

/-- C8 (amended): when the inbox of a custodial send is not opted in to
the token and its balance is below its minimum balance plus the fixed
registration reserve delta, the router funds it with exactly that
delta and no more. The inbox is (arc59_getOrCreateInbox s R).1 and the
state it is read in is (arc59_getOrCreateInbox s R).2: the input state
itself when the directory entry already exists, the creation state
with the fresh empty inbox account when it does not. The delta is
inboxMbrDelta (alookup R s.inboxes).isSome, which by definition is
assetOptInMinBalance plus the base minimum balance exactly when the
inbox was newly created, so both arms of the claim are covered. -/
theorem C8_funds_fixed_delta (s : ChainState) (ax : AssetTransferTxn) (R : Address)
    (bApp : Nat)
    (hax : ax.assetReceiver = appAddr)
    (hre : (s.accounts R).optedIn ax.xferAsset = false)
    (hIa : (arc59_getOrCreateInbox s R).1 ≠ appAddr)
    (h0 : alookup ax.xferAsset
      ((arc59_getOrCreateInbox s R).2.accounts
        (arc59_getOrCreateInbox s R).1).assets = none)
    (hguard : ((arc59_getOrCreateInbox s R).2.accounts
        (arc59_getOrCreateInbox s R).1).balance <
      minBalanceOf (arc59_getOrCreateInbox s R).2 (arc59_getOrCreateInbox s R).1 +
        inboxMbrDelta (alookup R s.inboxes).isSome)
    (hopt : minBalanceOf (arc59_getOrCreateInbox s R).2 (arc59_getOrCreateInbox s R).1 +
        gAssetOptInMinBalance ≤
      ((arc59_getOrCreateInbox s R).2.accounts
        (arc59_getOrCreateInbox s R).1).balance +
        inboxMbrDelta (alookup R s.inboxes).isSome)
    (hpayApp : inboxMbrDelta (alookup R s.inboxes).isSome +
        minBalanceOf (arc59_getOrCreateInbox s R).2 appAddr ≤
      ((arc59_getOrCreateInbox s R).2.accounts appAddr).balance)
    (hovI : ((arc59_getOrCreateInbox s R).2.accounts
        (arc59_getOrCreateInbox s R).1).balance +
        inboxMbrDelta (alookup R s.inboxes).isSome < u64Bound)
    (hApp : alookup ax.xferAsset
      ((arc59_getOrCreateInbox s R).2.accounts appAddr).assets = some bApp)
    (hle : ax.assetAmount ≤ bApp)
    (hamt : ax.assetAmount < u64Bound) :
    ∃ t, arc59_sendAsset s ax R = .ok ((arc59_getOrCreateInbox s R).1, t) ∧
      (t.accounts (arc59_getOrCreateInbox s R).1).balance =
        ((arc59_getOrCreateInbox s R).2.accounts
          (arc59_getOrCreateInbox s R).1).balance +
          inboxMbrDelta (alookup R s.inboxes).isSome ∧
      (t.accounts appAddr).balance =
        ((arc59_getOrCreateInbox s R).2.accounts appAddr).balance -
          inboxMbrDelta (alookup R s.inboxes).isSome ∧
      (t.accounts (arc59_getOrCreateInbox s R).1).assetBalance ax.xferAsset =
        ax.assetAmount := by
  have hIapp : appAddr ≠ (arc59_getOrCreateInbox s R).1 := fun hc => hIa hc.symm
  obtain ⟨t1, hstep, e1, e2, e3, e4, e5, e6, e7, e8⟩ :=
    inboxOptInStep_fund_ok (arc59_getOrCreateInbox s R).2 (arc59_getOrCreateInbox s R).1
      ax.xferAsset (alookup R s.inboxes).isSome hIa h0 hguard
      (le_trans (Nat.le_add_right _ _) hpayApp)
      hovI
      (Nat.le_sub_of_add_le
        (Nat.add_comm (inboxMbrDelta (alookup R s.inboxes).isSome)
          (minBalanceOf (arc59_getOrCreateInbox s R).2 appAddr) ▸ hpayApp))
      hopt
  have hb1 : alookup ax.xferAsset (t1.accounts appAddr).assets = some bApp := by
    rw [e7]; exact hApp
  have hq1 : (t1.accounts (arc59_getOrCreateInbox s R).1).optedIn ax.xferAsset = true := by
    simp [Account.optedIn, e5, alookup_cons]
  have habal1 :
      (t1.accounts (arc59_getOrCreateInbox s R).1).assetBalance ax.xferAsset = 0 := by
    simp [Account.assetBalance, e5, alookup_cons]
  obtain ⟨t2, hxfer, f1, f2, f3, f4, f5, f6, f7, f8, f9, f10⟩ :=
    transfer_ok t1 appAddr (arc59_getOrCreateInbox s R).1 ax.assetAmount ax.xferAsset
      bApp hIapp hb1 hle hq1 (by rw [habal1]; simpa using hamt)
  refine ⟨t2, ?_, ?_, ?_, ?_⟩
  · simp only [arc59_sendAsset]
    rw [if_pos hax]
    have hcond : ¬((s.accounts R).optedIn ax.xferAsset = true) := by simp [hre]
    rw [if_neg hcond]
    rw [hstep, ebind_ok, hxfer, ebind_ok]
    rfl
  · rw [f7, e4]
  · rw [f4, e6]
  · rw [f8, habal1]
    simp

theorem C8_funds_fixed_delta_witness :
    (wsAx.assetReceiver = appAddr ∧
      (wsC8.accounts 2).optedIn wsAx.xferAsset = false ∧
      (arc59_getOrCreateInbox wsC8 2).1 ≠ appAddr ∧
      alookup wsAx.xferAsset
        ((arc59_getOrCreateInbox wsC8 2).2.accounts
          (arc59_getOrCreateInbox wsC8 2).1).assets = none ∧
      ((arc59_getOrCreateInbox wsC8 2).2.accounts
          (arc59_getOrCreateInbox wsC8 2).1).balance <
        minBalanceOf (arc59_getOrCreateInbox wsC8 2).2 (arc59_getOrCreateInbox wsC8 2).1 +
          inboxMbrDelta (alookup 2 wsC8.inboxes).isSome ∧
      inboxMbrDelta (alookup 2 wsC8.inboxes).isSome = gAssetOptInMinBalance) ∧
    (∃ t, arc59_sendAsset wsC8 wsAx 2 = .ok ((arc59_getOrCreateInbox wsC8 2).1, t) ∧
      (t.accounts (arc59_getOrCreateInbox wsC8 2).1).balance =
        ((arc59_getOrCreateInbox wsC8 2).2.accounts
          (arc59_getOrCreateInbox wsC8 2).1).balance +
          inboxMbrDelta (alookup 2 wsC8.inboxes).isSome ∧
      (t.accounts appAddr).balance =
        ((arc59_getOrCreateInbox wsC8 2).2.accounts appAddr).balance -
          inboxMbrDelta (alookup 2 wsC8.inboxes).isSome ∧
      (t.accounts (arc59_getOrCreateInbox wsC8 2).1).assetBalance wsAx.xferAsset =
        wsAx.assetAmount) ∧
    ((wsMain.accounts 4).optedIn wsAx.xferAsset = false ∧
      alookup 4 wsMain.inboxes = none ∧
      (arc59_getOrCreateInbox wsMain 4).1 ≠ appAddr ∧
      inboxMbrDelta (alookup 4 wsMain.inboxes).isSome =
        gAssetOptInMinBalance + gMinBalance) ∧
    (∃ t, arc59_sendAsset wsMain wsAx 4 = .ok ((arc59_getOrCreateInbox wsMain 4).1, t) ∧
      (t.accounts (arc59_getOrCreateInbox wsMain 4).1).balance =
        ((arc59_getOrCreateInbox wsMain 4).2.accounts
          (arc59_getOrCreateInbox wsMain 4).1).balance +
          inboxMbrDelta (alookup 4 wsMain.inboxes).isSome ∧
      (t.accounts appAddr).balance =
        ((arc59_getOrCreateInbox wsMain 4).2.accounts appAddr).balance -
          inboxMbrDelta (alookup 4 wsMain.inboxes).isSome ∧
      (t.accounts (arc59_getOrCreateInbox wsMain 4).1).assetBalance wsAx.xferAsset =
        wsAx.assetAmount) :=
  ⟨by decide,
    C8_funds_fixed_delta wsC8 wsAx 2 50 (by decide) (by decide) (by decide) (by decide)
      (by decide) (by decide) (by decide) (by decide) (by decide) (by decide)
      (by decide),
    by decide,
    C8_funds_fixed_delta wsMain wsAx 4 50 (by decide) (by decide) (by decide) (by decide)
      (by decide) (by decide) (by decide) (by decide) (by decide) (by decide)
      (by decide)⟩

/-- C9: for a caller whose inbox exists but holds no registration for
token T, both claim and reject fail (the close-out of a nonexistent
registration is rejected: the NothingToClaim condition), and the
aborted group leaves no state change behind. -/
theorem C9_claim_reject_nothing (s : ChainState) (caller I : Address) (T : AssetID)
    (hI : alookup caller s.inboxes = some I)
    (h0 : alookup T (s.accounts I).assets = none) :
    arc59_claim s caller T = .error .assetSenderNotOptedIn ∧
    arc59_reject s caller T = .error .assetSenderNotOptedIn :=
  ⟨claim_notOptedIn_err s caller I T hI h0, reject_notOptedIn_err s caller I T hI h0⟩

theorem C9_claim_reject_nothing_witness :
    (alookup 2 wsMain.inboxes = some 10 ∧
      alookup 8 (wsMain.accounts 10).assets = none) ∧
    (arc59_claim wsMain 2 8 = .error .assetSenderNotOptedIn ∧
      arc59_reject wsMain 2 8 = .error .assetSenderNotOptedIn) :=
  ⟨by decide, C9_claim_reject_nothing wsMain 2 10 8 (by decide) (by decide)⟩

/-- C10: for a caller with no entry at all in the inbox directory, both
claim and reject abort on the directory read of the missing key, before
any asset transfer or payment, so nothing changes. -/
theorem C10_no_entry_aborts (s : ChainState) (caller : Address) (T : AssetID)
    (h : alookup caller s.inboxes = none) :
    arc59_claim s caller T = .error .boxNotFound ∧
    arc59_reject s caller T = .error .boxNotFound :=
  ⟨claim_noEntry_err s caller T h, reject_noEntry_err s caller T h⟩

theorem C10_no_entry_aborts_witness :
    alookup 5 wsMain.inboxes = none ∧
    (arc59_claim wsMain 5 7 = .error .boxNotFound ∧
      arc59_reject wsMain 5 7 = .error .boxNotFound) :=
  ⟨by decide, C10_no_entry_aborts wsMain 5 7 (by decide)⟩

end Arc59
